import Mathlib

/-!
Shallow embedding of the `dbglog` Go package (src/dbglog.go) and proofs about
its conditional-logging behavior.

The package wraps a `log.Logger` with an `enabled` flag and a `uint64` bitmask.
Each debug operation is modelled as a pure function from the logger state to a
pair of the resulting state and the list of print events the call emits on the
underlying base logger. Variadic `interface{}` arguments are modelled as lists
of strings; the `uint64` mask and bit values are modelled as natural numbers
(every operation on them is a bitwise AND or an equality test, so no overflow
can occur and the embedding is faithful for all values below 2^64 and beyond).
-/

/-- A print event on the embedded base logger (`log.Logger`):
`printf` models `Printf`, `print` models `Print`, `println` models `Println`. -/
inductive LogOutput where
  | printf (format : String) (v : List String)
  | print (v : List String)
  | println (v : List String)
deriving DecidableEq, Repr

/-- The base logger configuration produced by `log.New(out, prefix, flag)`.
The output sink (`io.Writer`) is modelled as an opaque identifier. -/
structure GoLogger where
  out : Nat
  prefixStr : String
  flag : Int
deriving DecidableEq, Repr

/-- Go: `type DbgLogger struct { *log.Logger; enabled bool; mask uint64 }`. -/
structure DbgLogger where
  logger : GoLogger
  enabled : Bool
  mask : Nat
deriving DecidableEq, Repr

namespace DbgLogger

/-- Go `Debugf`: `if d.enabled { d.Printf(format, v...) }`. -/
def Debugf (d : DbgLogger) (format : String) (v : List String) :
    DbgLogger × List LogOutput :=
  if d.enabled then (d, [LogOutput.printf format v]) else (d, [])

/-- Go `Debug`: the source reads
`if d.enabled { }` followed by `d.Print(v...)` — the conditional body is
empty and the print call sits outside it, so the print is unconditional. -/
def Debug (d : DbgLogger) (v : List String) : DbgLogger × List LogOutput :=
  (d, [LogOutput.print v])

/-- Go `Debugln`: `if d.enabled { d.Println(v...) }`. -/
def Debugln (d : DbgLogger) (v : List String) : DbgLogger × List LogOutput :=
  if d.enabled then (d, [LogOutput.println v]) else (d, [])

/-- Go `Enable`: `d.enabled = true`. -/
def Enable (d : DbgLogger) : DbgLogger :=
  { d with enabled := true }

/-- Go `Disable`: `d.enabled = false`. -/
def Disable (d : DbgLogger) : DbgLogger :=
  { d with enabled := false }

/-- Go `SetMask`: `d.mask = mask`. -/
def SetMask (d : DbgLogger) (mask : Nat) : DbgLogger :=
  { d with mask := mask }

/-- Go `DebugfM`:
`if d.enabled == true && bit != 0 && bit & d.mask == bit { d.Printf(format, v...) }`. -/
def DebugfM (d : DbgLogger) (bit : Nat) (format : String) (v : List String) :
    DbgLogger × List LogOutput :=
  if d.enabled = true ∧ bit ≠ 0 ∧ bit &&& d.mask = bit then
    (d, [LogOutput.printf format v])
  else (d, [])

/-- Go `DebugM`:
`if d.enabled == true && bit != 0 && bit & d.mask == bit { d.Print(v...) }`.
The `format` parameter is declared in the Go signature but never used. -/
def DebugM (d : DbgLogger) (bit : Nat) (format : String) (v : List String) :
    DbgLogger × List LogOutput :=
  if d.enabled = true ∧ bit ≠ 0 ∧ bit &&& d.mask = bit then
    (d, [LogOutput.print v])
  else (d, [])

/-- Go `DebuglnM`:
`if d.enabled == true && bit != 0 && bit & d.mask == bit { d.Println(v...) }`.
The `format` parameter is declared in the Go signature but never used. -/
def DebuglnM (d : DbgLogger) (bit : Nat) (format : String) (v : List String) :
    DbgLogger × List LogOutput :=
  if d.enabled = true ∧ bit ≠ 0 ∧ bit &&& d.mask = bit then
    (d, [LogOutput.println v])
  else (d, [])

/-- Go `New`: `d := &DbgLogger{}` (zero values: `enabled = false`, `mask = 0`)
followed by `d.Logger = log.New(out, prefix, flag)`. -/
def New (out : Nat) (prefixStr : String) (flag : Int) : DbgLogger :=
  { logger := { out := out, prefixStr := prefixStr, flag := flag },
    enabled := false, mask := 0 }

end DbgLogger

/-- One call in a sequence of `Enable`/`Disable` invocations. -/
inductive ToggleCall where
  | enable
  | disable
deriving DecidableEq, Repr

/-- Apply one `Enable`/`Disable` call to the logger state. -/
def applyToggle (d : DbgLogger) : ToggleCall → DbgLogger
  | ToggleCall.enable => d.Enable
  | ToggleCall.disable => d.Disable

/-- Apply a sequence of `Enable`/`Disable` calls from left to right. -/
def applyToggles (d : DbgLogger) (cs : List ToggleCall) : DbgLogger :=
  cs.foldl applyToggle d

/-- Every bit set in `bit` is set in `m`, and every bit of `m` is set in `m2`,
so every bit of `bit` is set in `m2`. -/
theorem land_eq_of_land_land (bit m m2 : Nat) (hsub : m &&& m2 = m)
    (hbit : bit &&& m = bit) : bit &&& m2 = bit := by
  calc bit &&& m2 = (bit &&& m) &&& m2 := by rw [hbit]
    _ = bit &&& (m &&& m2) := Nat.land_assoc bit m m2
    _ = bit &&& m := by rw [hsub]
    _ = bit := hbit

/-- C1: for every logger state and every call to `DebugfM`, `DebugM` or
`DebuglnM` with argument `bit`, the underlying print operation is invoked
(the call's output is nonempty) iff `enabled = true`, `bit ≠ 0` and
`bit &&& mask = bit`. -/
theorem masked_ops_emit_iff (d : DbgLogger) (bit : Nat) (format : String)
    (v : List String) :
    ((d.DebugfM bit format v).2 ≠ [] ↔
      (d.enabled = true ∧ bit ≠ 0 ∧ bit &&& d.mask = bit)) ∧
    ((d.DebugM bit format v).2 ≠ [] ↔
      (d.enabled = true ∧ bit ≠ 0 ∧ bit &&& d.mask = bit)) ∧
    ((d.DebuglnM bit format v).2 ≠ [] ↔
      (d.enabled = true ∧ bit ≠ 0 ∧ bit &&& d.mask = bit)) := by
  unfold DbgLogger.DebugfM DbgLogger.DebugM DbgLogger.DebuglnM
  refine ⟨?_, ?_, ?_⟩ <;> split <;> simp_all

/-- C2: `Debugf` invokes the underlying formatted-print operation iff
`enabled = true`, and `Debugln` invokes the underlying println operation iff
`enabled = true`; both leave the state unchanged and write nothing exactly
when `enabled = false`. -/
theorem debugf_debugln_emit_iff_enabled (d : DbgLogger) (format : String)
    (v w : List String) :
    ((d.Debugf format v).1 = d) ∧
    ((d.Debugf format v).2 = [LogOutput.printf format v] ↔ d.enabled = true) ∧
    ((d.Debugf format v).2 = [] ↔ d.enabled = false) ∧
    ((d.Debugln w).1 = d) ∧
    ((d.Debugln w).2 = [LogOutput.println w] ↔ d.enabled = true) ∧
    ((d.Debugln w).2 = [] ↔ d.enabled = false) := by
  unfold DbgLogger.Debugf DbgLogger.Debugln
  cases h : d.enabled <;> simp [h]

/-- C3: the claim states that `Debug` is a no-op when `enabled = false`, but
the conditional body in the source is empty and the `Print` call sits outside
it: on a freshly constructed (hence disabled) logger, `Debug` still invokes
the underlying print operation with its arguments. -/
theorem debug_emits_when_disabled :
    (DbgLogger.New 0 "" 0).enabled = false ∧
    ((DbgLogger.New 0 "" 0).Debug ["y"]).2 = [LogOutput.print ["y"]] :=
  ⟨rfl, rfl⟩

/-- C4: the reference behavior of `Debug` is unconditional emission: for every
logger state (including `enabled = false`), `Debug` leaves the state unchanged
and invokes the underlying print operation exactly once. -/
theorem debug_unconditional (d : DbgLogger) (v : List String) :
    d.Debug v = (d, [LogOutput.print v]) := rfl

/-- C5: for every sink, prefix and flag argument, `New` returns a logger with
`enabled = false` and `mask = 0`, and a `Debugf` call on that fresh logger
writes nothing. -/
theorem new_initial_state (out : Nat) (prefixStr : String) (flag : Int)
    (format : String) (v : List String) :
    (DbgLogger.New out prefixStr flag).enabled = false ∧
    (DbgLogger.New out prefixStr flag).mask = 0 ∧
    ((DbgLogger.New out prefixStr flag).Debugf format v).2 = [] :=
  ⟨rfl, rfl, rfl⟩

/-- C6: for every logger state (any `enabled`, any `mask`), calling `DebugfM`,
`DebugM` or `DebuglnM` with `bit = 0` never invokes the underlying print
operation. -/
theorem masked_ops_bit_zero_never_emit (d : DbgLogger) (format : String)
    (v : List String) :
    (d.DebugfM 0 format v).2 = [] ∧ (d.DebugM 0 format v).2 = [] ∧
    (d.DebuglnM 0 format v).2 = [] := by
  unfold DbgLogger.DebugfM DbgLogger.DebugM DbgLogger.DebuglnM
  simp

/-- C7: `Enable` and `Disable` are idempotent, after any sequence of toggle
calls the `enabled` state is determined solely by the last call, and the next
`Debugf`/`Debugln` call emits iff that last call was `Enable`. -/
theorem enable_disable_last_call_wins (d : DbgLogger) (cs : List ToggleCall)
    (format : String) (v w : List String) :
    d.Enable.Enable = d.Enable ∧
    d.Disable.Disable = d.Disable ∧
    (applyToggles d (cs ++ [ToggleCall.enable])).enabled = true ∧
    (applyToggles d (cs ++ [ToggleCall.disable])).enabled = false ∧
    ((applyToggles d (cs ++ [ToggleCall.enable])).Debugf format v).2 ≠ [] ∧
    ((applyToggles d (cs ++ [ToggleCall.disable])).Debugf format v).2 = [] ∧
    ((applyToggles d (cs ++ [ToggleCall.enable])).Debugln w).2 ≠ [] ∧
    ((applyToggles d (cs ++ [ToggleCall.disable])).Debugln w).2 = [] := by
  refine ⟨rfl, rfl, ?_⟩
  unfold applyToggles
  simp [List.foldl_append, applyToggle, DbgLogger.Enable, DbgLogger.Disable,
    DbgLogger.Debugf, DbgLogger.Debugln]

/-- C8: each operation modifies only its own field: `Enable`/`Disable` leave
`mask` (and the base logger) unchanged, `SetMask` sets `mask` to the given
value and leaves `enabled` (and the base logger) unchanged, and every debug
call leaves the whole state — in particular `enabled` and `mask` —
unchanged. -/
theorem frame_conditions (d : DbgLogger) (m bit : Nat) (format : String)
    (v : List String) :
    d.Enable.mask = d.mask ∧ d.Enable.logger = d.logger ∧
    d.Disable.mask = d.mask ∧ d.Disable.logger = d.logger ∧
    (d.SetMask m).mask = m ∧ (d.SetMask m).enabled = d.enabled ∧
    (d.SetMask m).logger = d.logger ∧
    (d.Debugf format v).1 = d ∧ (d.Debug v).1 = d ∧ (d.Debugln v).1 = d ∧
    (d.DebugfM bit format v).1 = d ∧ (d.DebugM bit format v).1 = d ∧
    (d.DebuglnM bit format v).1 = d := by
  unfold DbgLogger.Enable DbgLogger.Disable DbgLogger.SetMask
    DbgLogger.Debugf DbgLogger.Debug DbgLogger.Debugln
    DbgLogger.DebugfM DbgLogger.DebugM DbgLogger.DebuglnM
  refine ⟨rfl, rfl, rfl, rfl, rfl, rfl, rfl, ?_, rfl, ?_, ?_, ?_, ?_⟩ <;>
    split <;> rfl

/-- C9: the `format` parameter of `DebugM` and `DebuglnM` has no effect: two
calls differing only in that argument produce identical output and identical
resulting state. -/
theorem debugM_format_irrelevant (d : DbgLogger) (bit : Nat)
    (f1 f2 : String) (v : List String) :
    d.DebugM bit f1 v = d.DebugM bit f2 v ∧
    d.DebuglnM bit f1 v = d.DebuglnM bit f2 v :=
  ⟨rfl, rfl⟩

/-- C10: the masked gate is monotone in the mask: for every state, if every
bit of `m` is also set in `m2` (`m &&& m2 = m`) and a masked call emits under
mask `m`, the same call emits under mask `m2`. -/
theorem masked_gate_monotone (d : DbgLogger) (m m2 bit : Nat)
    (format : String) (v : List String) (hsub : m &&& m2 = m) :
    ((({ d with mask := m } : DbgLogger).DebugfM bit format v).2 ≠ [] →
      (({ d with mask := m2 } : DbgLogger).DebugfM bit format v).2 ≠ []) ∧
    ((({ d with mask := m } : DbgLogger).DebugM bit format v).2 ≠ [] →
      (({ d with mask := m2 } : DbgLogger).DebugM bit format v).2 ≠ []) ∧
    ((({ d with mask := m } : DbgLogger).DebuglnM bit format v).2 ≠ [] →
      (({ d with mask := m2 } : DbgLogger).DebuglnM bit format v).2 ≠ []) := by
  unfold DbgLogger.DebugfM DbgLogger.DebugM DbgLogger.DebuglnM
  refine ⟨?_, ?_, ?_⟩ <;>
  · intro h
    split at h
    next hc =>
      obtain ⟨he, hb, hm⟩ := hc
      have hm2 : bit &&& m2 = bit :=
        land_eq_of_land_land bit m m2 hsub (by simpa using hm)
      simp_all
    next hc => simp at h

/-- Concrete instantiation of `masked_gate_monotone`: with `enabled = true`,
`bit = 1`, mask `1` widened to mask `3` (`1 &&& 3 = 1`), emission under the
narrow mask implies emission under the wide mask. -/
theorem masked_gate_monotone_witness :
    (1 &&& 3 = 1) ∧
    (((({ DbgLogger.New 0 "" 0 with mask := 1 } : DbgLogger).DebugfM 1 "a" []).2 ≠ [] →
      (({ DbgLogger.New 0 "" 0 with mask := 3 } : DbgLogger).DebugfM 1 "a" []).2 ≠ []) ∧
    ((({ DbgLogger.New 0 "" 0 with mask := 1 } : DbgLogger).DebugM 1 "a" []).2 ≠ [] →
      (({ DbgLogger.New 0 "" 0 with mask := 3 } : DbgLogger).DebugM 1 "a" []).2 ≠ []) ∧
    ((({ DbgLogger.New 0 "" 0 with mask := 1 } : DbgLogger).DebuglnM 1 "a" []).2 ≠ [] →
      (({ DbgLogger.New 0 "" 0 with mask := 3 } : DbgLogger).DebuglnM 1 "a" []).2 ≠ [])) :=
  ⟨by decide, masked_gate_monotone (DbgLogger.New 0 "" 0) 1 3 1 "a" [] (by decide)⟩
